import Mathlib

/-!
# Verification of the subscription-gated group access bot

Shallow embedding of `bot.py` (subscription plans, reference generator,
payment initiator, router handlers, status check, expiry sweeper), of the
persistence collaborator specified in §6 of the design document, and of the
payment webhook handler specified in §4.3.

Conventions:
* times are natural numbers of minutes since the Unix epoch (UTC instants);
* a `datetime.timedelta` is a number of minutes;
* chat identities are natural numbers;
* the effects of a handler are returned as an explicit list of events /
  outbound messages together with the updated store;
* Python exceptions are modelled by `Except` / an explicit completion flag.
-/

namespace BotSub

/-! ## Subscription plan catalog (`subscription_plans`, bot.py:42-46) -/

/-- A subscription plan: `duration` in minutes (the source uses
`datetime.timedelta`), `price` as stored in the catalog dictionary. -/
structure Plan where
  duration : Nat
  price : Nat
deriving DecidableEq, Repr

/-- The static catalog `subscription_plans` of bot.py:42-46, as a partial map
from plan name to plan, mirroring the Python dict. -/
def subscription_plans : String → Option Plan
  | "15 Minutes" => some ⟨15, 15000⟩
  | "30 Minutes" => some ⟨30, 25000⟩
  | "1 Hour" => some ⟨60, 95000⟩
  | _ => none

/-! ## Reference generator (`generate_unique_reference`, bot.py:51-55)

`uuid.uuid4()` draws 122 random bits and fixes the version nibble to `4` and
the two variant bits to `10`; `str` renders the canonical
`8-4-4-4-12` lowercase-hex form. We model the random draw as the five
random field contents. -/

/-- The random content of one `uuid.uuid4()` call: 32 + 16 + 12 + 14 + 48
= 122 random bits, split into the canonical fields (the version nibble and
the variant bits are not part of the draw, they are fixed by `uuid4`). -/
structure UuidDraw where
  time_low : Fin (2 ^ 32)
  time_mid : Fin (2 ^ 16)
  rand_a : Fin (2 ^ 12)
  rand_b : Fin (2 ^ 14)
  node : Fin (2 ^ 48)
deriving DecidableEq, Repr

/-- Digit characters `0`-`9`, `a`-`f` (lowercase, matching the Python uuid str). -/
def hexDigit (n : Nat) : Char :=
  if n < 10 then Char.ofNat (48 + n) else Char.ofNat (87 + n)

/-- Fixed-width base-16 rendering, most significant digit first. -/
def toHexFixed : Nat → Nat → List Char
  | 0, _ => []
  | w + 1, n => toHexFixed w (n / 16) ++ [hexDigit (n % 16)]

/-- `str(uuid.uuid4())`: canonical 36-character form, with version `4` and
variant `10` inserted into the third and fourth groups. -/
def uuidString (d : UuidDraw) : List Char :=
  toHexFixed 8 d.time_low ++ ['-'] ++ toHexFixed 4 d.time_mid ++ ['-'] ++
    toHexFixed 4 (0x4000 + d.rand_a) ++ ['-'] ++
    toHexFixed 4 (0x8000 + d.rand_b) ++ ['-'] ++ toHexFixed 12 d.node

/-- `generate_unique_reference` (bot.py:51-55): the uuid string, truncated to
100 characters when longer. -/
def generate_unique_reference (d : UuidDraw) : List Char :=
  let reference := uuidString d
  if reference.length > 100 then reference.take 100 else reference

theorem toHexFixed_length (w n : Nat) : (toHexFixed w n).length = w := by
  induction w generalizing n with
  | zero => rfl
  | succ w ih => simp [toHexFixed, ih]

theorem uuidString_length (d : UuidDraw) : (uuidString d).length = 36 := by
  simp [uuidString, toHexFixed_length]

/-- Inverse of `hexDigit` on the sixteen digit values. -/
def hexDigitVal (c : Char) : Nat :=
  if c.toNat ≥ 87 then c.toNat - 87 else c.toNat - 48

theorem hexDigitVal_hexDigit {n : Nat} (h : n < 16) :
    hexDigitVal (hexDigit n) = n := by
  interval_cases n <;> rfl

theorem toHexFixed_injOn {w m n : Nat} (hm : m < 16 ^ w) (hn : n < 16 ^ w)
    (h : toHexFixed w m = toHexFixed w n) : m = n := by
  induction w generalizing m n with
  | zero => omega
  | succ w ih =>
    simp only [toHexFixed] at h
    have hlen : (toHexFixed w (m / 16)).length = (toHexFixed w (n / 16)).length := by
      simp [toHexFixed_length]
    obtain ⟨h1, h2⟩ := List.append_inj h hlen
    have hm' : m / 16 < 16 ^ w := by
      rw [Nat.div_lt_iff_lt_mul (by norm_num)]
      calc m < 16 ^ (w + 1) := hm
      _ = 16 ^ w * 16 := by ring
    have hn' : n / 16 < 16 ^ w := by
      rw [Nat.div_lt_iff_lt_mul (by norm_num)]
      calc n < 16 ^ (w + 1) := hn
      _ = 16 ^ w * 16 := by ring
    have hdiv := ih hm' hn' h1
    have hmod : m % 16 = n % 16 := by
      have h2' : hexDigit (m % 16) = hexDigit (n % 16) := by
        simpa using h2
      have := congrArg hexDigitVal h2'
      rwa [hexDigitVal_hexDigit (Nat.mod_lt _ (by norm_num)),
        hexDigitVal_hexDigit (Nat.mod_lt _ (by norm_num))] at this
    omega

theorem uuidString_inj {d₁ d₂ : UuidDraw} (h : uuidString d₁ = uuidString d₂) :
    d₁ = d₂ := by
  unfold uuidString at h
  obtain ⟨h, e5⟩ := List.append_inj h (by simp [toHexFixed_length])
  obtain ⟨h, -⟩ := List.append_inj h (by simp [toHexFixed_length])
  obtain ⟨h, e4⟩ := List.append_inj h (by simp [toHexFixed_length])
  obtain ⟨h, -⟩ := List.append_inj h (by simp [toHexFixed_length])
  obtain ⟨h, e3⟩ := List.append_inj h (by simp [toHexFixed_length])
  obtain ⟨h, -⟩ := List.append_inj h (by simp [toHexFixed_length])
  obtain ⟨h, e2⟩ := List.append_inj h (by simp [toHexFixed_length])
  obtain ⟨e1, -⟩ := List.append_inj h (by simp [toHexFixed_length])
  have h1 : (d₁.time_low : Nat) = d₂.time_low := by
    refine toHexFixed_injOn ?_ ?_ e1
    · have := d₁.time_low.isLt; norm_num at this ⊢; omega
    · have := d₂.time_low.isLt; norm_num at this ⊢; omega
  have h2 : (d₁.time_mid : Nat) = d₂.time_mid := by
    refine toHexFixed_injOn ?_ ?_ e2
    · have := d₁.time_mid.isLt; norm_num at this ⊢; omega
    · have := d₂.time_mid.isLt; norm_num at this ⊢; omega
  have h3 : 0x4000 + (d₁.rand_a : Nat) = 0x4000 + (d₂.rand_a : Nat) := by
    refine toHexFixed_injOn ?_ ?_ e3
    · have := d₁.rand_a.isLt; norm_num at this ⊢; omega
    · have := d₂.rand_a.isLt; norm_num at this ⊢; omega
  have h4 : 0x8000 + (d₁.rand_b : Nat) = 0x8000 + (d₂.rand_b : Nat) := by
    refine toHexFixed_injOn ?_ ?_ e4
    · have := d₁.rand_b.isLt; norm_num at this ⊢; omega
    · have := d₂.rand_b.isLt; norm_num at this ⊢; omega
  have h5 : (d₁.node : Nat) = d₂.node := by
    refine toHexFixed_injOn ?_ ?_ e5
    · have := d₁.node.isLt; norm_num at this ⊢; omega
    · have := d₂.node.isLt; norm_num at this ⊢; omega
  have h3' : (d₁.rand_a : Nat) = d₂.rand_a := by omega
  have h4' : (d₁.rand_b : Nat) = d₂.rand_b := by omega
  cases d₁; cases d₂
  simp_all [Fin.ext_iff]

/-! ## Subscription store (persistence collaborator)

`bot.py` imports `get_expired_subscriptions`, `get_user_subscription` and
`remove_subscription` from `db`, which is repository code not included here;
§6 of the design document specifies the persistence interface
(`getSubscription`, `upsertSubscription`, `deleteSubscription`,
`listExpired(now)`), and §3 the record shape. -/

/-- A Subscription Record (design document §3): keyed by the chat identity,
with plan type, start and end instants (minutes since epoch, UTC). -/
structure SubRecord where
  telegram_chat_id : Nat
  plan : String
  start_date : Nat
  end_date : Nat
deriving DecidableEq, Repr

/-- The subscription store, as the list of its records. -/
abbrev Store := List SubRecord

/-- Modelled from the spec: `db.get_expired_subscriptions` is absent from
src/. §6 `listExpired(now) -> [Record]` with §3 "read+deleted by the sweeper
when `end_date <= now`": all records whose `end_date` is at most `now`. -/
def get_expired_subscriptions (now : Nat) (store : Store) : List SubRecord :=
  store.filter (fun r => r.end_date ≤ now)

/-- Modelled from the spec: `db.remove_subscription` is absent from src/.
§6 `deleteSubscription(chatId)`: drop the record(s) keyed by `chatId`. -/
def remove_subscription (chatId : Nat) (store : Store) : Store :=
  store.filter (fun r => r.telegram_chat_id ≠ chatId)

/-- Modelled from the spec: `db.get_user_subscription` is absent from src/.
§6 `getSubscription(chatId) -> Record|absent`. -/
def get_user_subscription (chatId : Nat) (store : Store) : Option SubRecord :=
  store.find? (fun r => r.telegram_chat_id == chatId)

/-! ## Expiry sweeper (`check_subscription_expiry`, bot.py:147-167)

The two chat-platform calls (`send_message`, `ban_chat_member`) can raise;
the Python body has no exception handler, so a raise propagates out of the
loop. We model the outcome of each call by oracles `sendOk` / `banOk`
(indexed by the chat identity of the record), return the trace of effects that
actually happened, the resulting store, and `true` iff the sweep ran to
completion without an exception. -/

/-- An observable side effect of one sweep. -/
inductive Event where
  | sendRenewPrompt (chatId : Nat)
  | revokeMembership (chatId : Nat)
  | deleteRecord (chatId : Nat)
deriving DecidableEq, Repr

/-- The `for subscription in expired_subscriptions` loop of bot.py:149-167:
send the renewal prompt, ban the member, delete the record, in that order;
an exception from either chat-platform call aborts the whole loop. -/
def sweepRecords (sendOk banOk : Nat → Bool) :
    List SubRecord → Store → List Event × Store × Bool
  | [], store => ([], store, true)
  | r :: rest, store =>
    let cid := r.telegram_chat_id
    if sendOk cid then
      if banOk cid then
        let next := sweepRecords sendOk banOk rest (remove_subscription cid store)
        (Event.sendRenewPrompt cid :: Event.revokeMembership cid ::
          Event.deleteRecord cid :: next.1, next.2)
      else
        ([Event.sendRenewPrompt cid], store, false)
    else
      ([], store, false)

/-- `check_subscription_expiry` (bot.py:147-167): fetch the expired records
and process each. -/
def check_subscription_expiry (sendOk banOk : Nat → Bool) (now : Nat)
    (store : Store) : List Event × Store × Bool :=
  sweepRecords sendOk banOk (get_expired_subscriptions now store) store

/-! ## Subscription status (`check_subscription_status`, bot.py:132-144) -/

/-- Fixed-width base-10 rendering, most significant digit first (reuses
`hexDigit`, which agrees with decimal digits below 10). -/
def toDecFixed : Nat → Nat → List Char
  | 0, _ => []
  | w + 1, n => toDecFixed w (n / 10) ++ [hexDigit (n % 10)]

/-- Unpadded decimal of a clock field (always < 60 here), as the Python f-string renders `expiry_date.hour` / `expiry_date.minute`. -/
def clockChars (n : Nat) : List Char :=
  if n < 10 then [hexDigit n] else [hexDigit (n / 10 % 10), hexDigit (n % 10)]

/-- Civil date (year, month, day) of a day count since 1970-01-01, the
standard days-to-civil Gregorian conversion used by `datetime.date`. -/
def civilFromDays (z : Nat) : Nat × Nat × Nat :=
  let z' := z + 719468
  let era := z' / 146097
  let doe := z' % 146097
  let yoe := (doe - doe / 1460 + doe / 36524 - doe / 146096) / 365
  let y := yoe + era * 400
  let doy := doe - (365 * yoe + yoe / 4 - yoe / 100)
  let mp := (5 * doy + 2) / 153
  let d := doy - (153 * mp + 2) / 5 + 1
  let m := if mp < 10 then mp + 3 else mp - 9
  (if m ≤ 2 then y + 1 else y, m, d)

/-- `str(expiry_date.date())`: ISO `YYYY-MM-DD`. -/
def formatDate (ymd : Nat × Nat × Nat) : String :=
  String.mk (toDecFixed 4 ymd.1 ++ ['-'] ++ toDecFixed 2 ymd.2.1 ++ ['-'] ++
    toDecFixed 2 ymd.2.2)

/-- `astimezone(pytz.timezone("Africa/Lagos"))`: Africa/Lagos is UTC+01:00
year-round (no daylight saving), so the displayed wall clock is the UTC
instant shifted by 60 minutes. -/
def lagosWallMinutes (t : Nat) : Nat := t + 60

/-- The date field of the display time of a UTC instant `t`. -/
def displayDate (t : Nat) : Nat × Nat × Nat :=
  civilFromDays (lagosWallMinutes t / 1440)

/-- The hour field of the display time of a UTC instant `t`. -/
def displayHour (t : Nat) : Nat := lagosWallMinutes t % 1440 / 60

/-- The minute field of the display time of a UTC instant `t`. -/
def displayMinute (t : Nat) : Nat := lagosWallMinutes t % 60

/-- The reply text of `check_subscription_status` (bot.py:132-144): the
"no active subscription" message when the store has no record for the chat,
otherwise the f-string built from the end date converted to Africa/Lagos. -/
def check_subscription_status (store : Store) (chatId : Nat) : String :=
  match get_user_subscription chatId store with
  | none => "You do not have an active subscription"
  | some subscription =>
      "Your subscription expires on: " ++
        formatDate (displayDate subscription.end_date) ++ " by " ++
        String.mk (clockChars (displayHour subscription.end_date)) ++ ":" ++
        String.mk (clockChars (displayMinute subscription.end_date))

/-! ## Payment initiator (`initiate_payment`, bot.py:58-78) -/

/-- The `metadata` object of the checkout-initialization body
(bot.py:70-75). -/
structure PaymentMetadata where
  telegram_chat_id : Nat
  payment_reference : String
  subscription_type : String
  username : String
deriving DecidableEq, Repr

/-- The JSON body of the checkout-initialization request (bot.py:66-76). -/
structure PaymentRequestBody where
  amount : Nat
  email : String
  reference : String
  metadata : PaymentMetadata
deriving DecidableEq, Repr

/-- The body `data` built by `initiate_payment`: the amount is multiplied by
100 ("Paystack expects the amount in kobo"), the metadata carries exactly the
chat identity, the reference, the plan name and the username. -/
def paymentRequestBody (amount : Nat) (email reference : String)
    (telegram_chat_id : Nat) (subscription_type username : String) :
    PaymentRequestBody :=
  { amount := amount * 100
    email := email
    reference := reference
    metadata :=
      { telegram_chat_id := telegram_chat_id
        payment_reference := reference
        subscription_type := subscription_type
        username := username } }

/-- A gateway JSON payload: per §4.2 of the design document the response is
either a payload carrying an authorization URL or a gateway error payload. -/
inductive PSPayload where
  | success (authorization_url : String)
  | failure (message : String)
deriving DecidableEq, Repr

/-- An HTTP response from `requests.post`: status code and decoded JSON. -/
structure HttpResponse where
  status : Nat
  body : PSPayload
deriving DecidableEq, Repr

/-- `initiate_payment` (bot.py:58-78). The network layer is a collaborator
`gateway`; `none` models `requests.post` raising (network failure), which the
function does not catch, so the exception propagates to the caller
(`Except.error`). Otherwise `response.json()` is returned unconditionally —
the status code is never inspected. The function performs no store
operation, so the store is returned unchanged. -/
def initiate_payment (amount : Nat) (email reference : String)
    (telegram_chat_id : Nat) (subscription_type username : String)
    (gateway : PaymentRequestBody → Option HttpResponse) (store : Store) :
    Except Unit PSPayload × Store :=
  match gateway (paymentRequestBody amount email reference telegram_chat_id
      subscription_type username) with
  | none => (Except.error (), store)
  | some response => (Except.ok response.body, store)

/-! ## Command/conversation router (bot.py:81-129) -/

/-- An outbound chat-platform message. -/
inductive OutMsg where
  | text (chatId : Nat) (body : String)
  | withInlineButtons (chatId : Nat) (body : String)
      (buttons : List (String × String))
  | withReplyKeyboard (chatId : Nat) (body : String)
      (keyboard : List (List String))
deriving DecidableEq, Repr

/-- The inline keyboard of `plans` (bot.py:121-125): label and
callback data of each button. -/
def plansKeyboard : List (String × String) :=
  [("15 minutes: 15,000 NGN", "15 Minutes"),
   ("30 minutes: 25,000 NGN", "30 Minutes"),
   ("1 Hour: 95,000 NGN", "1 Hour")]

/-- `start` (bot.py:81-99): ignore non-private chats, otherwise send the
welcome message with the two-option reply keyboard. No store access. -/
def start (chat_type : String) (chat_id : Nat) (store : Store) :
    List OutMsg × Store :=
  if chat_type ≠ "private" then ([], store)
  else
    ([OutMsg.withReplyKeyboard chat_id
        "Welcome, please click on the 'Join private group' button below"
        [["Join Private Group"], ["Subscription Status"]]], store)

/-- `plans` (bot.py:118-129): ignore non-private chats, otherwise send the
plan-selection inline keyboard. No store access. -/
def plans (chat_type : String) (chat_id : Nat) (store : Store) :
    List OutMsg × Store :=
  if chat_type ≠ "private" then ([], store)
  else
    ([OutMsg.withInlineButtons chat_id "Choose a subscription plan:"
        plansKeyboard], store)

/-- `handle_message` (bot.py:102-115): ignore non-private chats, dispatch the
two keyboard texts, otherwise reply with the guidance message. Reading the
store (status path) is its only store access; it never writes. -/
def handle_message (chat_type : String) (chat_id : Nat) (text : String)
    (store : Store) : List OutMsg × Store :=
  if chat_type ≠ "private" then ([], store)
  else if text = "Join Private Group" then plans chat_type chat_id store
  else if text = "Subscription Status" then
    ([OutMsg.text chat_id (check_subscription_status store chat_id)], store)
  else
    ([OutMsg.text chat_id
        "You selected an option. Please use /plans to see subscription plans or other options."],
      store)

/-! ## Payment webhook handler (design document §4.3) -/

/-- Modelled from the spec: §6 `upsertSubscription(record)` with the §3
invariant "at most one record per chat identity" and §4.3 "idempotent upsert
keyed by chat identity": the new record replaces any record with the same
key. -/
def upsertSubscription (r : SubRecord) (store : Store) : Store :=
  r :: store.filter (fun s => s.telegram_chat_id ≠ r.telegram_chat_id)

/-- A gateway webhook callback payload: reference, status, and the metadata
of the originating checkout request echoed back (§4.3, §6). -/
structure WebhookPayload where
  reference : String
  status : String
  metadata : PaymentMetadata
deriving DecidableEq, Repr

/-- Modelled from the spec: the Payment Webhook Handler is repository code
absent from src/ (§4.3: "not present in the excerpted entry point ...").
Per §4.3: reject unverified callbacks with no state change; on status
"success" with a known plan name, `end_date = now + plan.duration` and upsert
a record for the echoed chat identity; any other status or an unknown plan
name causes no persistence action. -/
def handle_payment_webhook (verified : Bool) (payload : WebhookPayload)
    (now : Nat) (store : Store) : Store :=
  if !verified then store
  else if payload.status ≠ "success" then store
  else
    match subscription_plans payload.metadata.subscription_type with
    | none => store
    | some plan =>
        upsertSubscription
          { telegram_chat_id := payload.metadata.telegram_chat_id
            plan := payload.metadata.subscription_type
            start_date := now
            end_date := now + plan.duration } store

/-! ## Theorems -/

/-- C9: every reference is at most 100 characters, and distinct underlying
random draws yield pairwise distinct references. -/
theorem generate_unique_reference_short_and_distinct :
    (∀ d : UuidDraw, (generate_unique_reference d).length ≤ 100) ∧
    ∀ d₁ d₂ : UuidDraw, d₁ ≠ d₂ →
      generate_unique_reference d₁ ≠ generate_unique_reference d₂ := by
  have hgen : ∀ d : UuidDraw, generate_unique_reference d = uuidString d := by
    intro d
    simp [generate_unique_reference, uuidString_length]
  constructor
  · intro d
    rw [hgen, uuidString_length]
    omega
  · intro d₁ d₂ hne h
    rw [hgen, hgen] at h
    exact hne (uuidString_inj h)

/-- A concrete pair of draws differing only in `time_low`. -/
def uuidDrawA : UuidDraw := ⟨0, 0, 0, 0, 0⟩

/-- A second concrete draw. -/
def uuidDrawB : UuidDraw := ⟨1, 0, 0, 0, 0⟩

theorem generate_unique_reference_short_and_distinct_witness :
    (generate_unique_reference uuidDrawA).length ≤ 100 ∧
    uuidDrawA ≠ uuidDrawB ∧
    generate_unique_reference uuidDrawA ≠ generate_unique_reference uuidDrawB :=
  ⟨generate_unique_reference_short_and_distinct.1 uuidDrawA, by decide,
    generate_unique_reference_short_and_distinct.2 uuidDrawA uuidDrawB (by decide)⟩

/-- C10: the uuid string is always exactly 36 characters, so the truncation
branch of `generate_unique_reference` is never taken: the function returns
the canonical uuid string unchanged. -/
theorem generate_unique_reference_truncation_unreachable (d : UuidDraw) :
    (uuidString d).length = 36 ∧ generate_unique_reference d = uuidString d :=
  ⟨uuidString_length d, by simp [generate_unique_reference, uuidString_length]⟩

theorem sweepRecords_all_ok (sendOk banOk : Nat → Bool)
    (hs : ∀ c, sendOk c = true) (hb : ∀ c, banOk c = true)
    (l : List SubRecord) (store : Store) :
    sweepRecords sendOk banOk l store =
      (l.flatMap (fun r => [Event.sendRenewPrompt r.telegram_chat_id,
          Event.revokeMembership r.telegram_chat_id,
          Event.deleteRecord r.telegram_chat_id]),
        store.filter
          (fun r => r.telegram_chat_id ∉ l.map SubRecord.telegram_chat_id),
        true) := by
  induction l generalizing store with
  | nil => simp [sweepRecords]
  | cons r rest ih =>
    simp only [sweepRecords, hs, hb, if_true, ih, remove_subscription,
      List.filter_filter, List.flatMap_cons, List.map_cons]
    congr 1
    · congr 1
      apply List.filter_congr
      intro x _
      simp [List.mem_cons, not_or, Bool.and_comm]

/-- C1: when the chat-platform calls succeed and the store satisfies the
one-record-per-chat-identity invariant, a sweep processes exactly the
records with `end_date ≤ now` — sending each affected user the renewal
prompt, revoking membership and deleting the record, in that order — and
leaves every record with a future `end_date` untouched. -/
theorem check_subscription_expiry_sweeps_exactly_expired
    (sendOk banOk : Nat → Bool) (now : Nat) (store : Store)
    (hs : ∀ c, sendOk c = true) (hb : ∀ c, banOk c = true)
    (huniq : store.Pairwise
      (fun a b => a.telegram_chat_id ≠ b.telegram_chat_id)) :
    check_subscription_expiry sendOk banOk now store =
      ((get_expired_subscriptions now store).flatMap
          (fun r => [Event.sendRenewPrompt r.telegram_chat_id,
            Event.revokeMembership r.telegram_chat_id,
            Event.deleteRecord r.telegram_chat_id]),
        store.filter (fun r => now < r.end_date), true) := by
  rw [check_subscription_expiry, sweepRecords_all_ok sendOk banOk hs hb]
  congr 1
  congr 1
  apply List.filter_congr
  intro r hr
  have key : r.telegram_chat_id ∈
      (get_expired_subscriptions now store).map SubRecord.telegram_chat_id ↔
      r.end_date ≤ now := by
    constructor
    · intro hmem
      obtain ⟨e, he, heq⟩ := List.mem_map.1 hmem
      rw [get_expired_subscriptions] at he
      have hestore := List.mem_of_mem_filter he
      have hexp : e.end_date ≤ now := by
        have := List.of_mem_filter he
        simpa using this
      rcases eq_or_ne e r with rfl | hne
      · exact hexp
      · exact absurd heq
          (List.Pairwise.forall (fun _ _ h => Ne.symm h) huniq hestore hr hne)
    · intro hle
      exact List.mem_map.2 ⟨r, by
        rw [get_expired_subscriptions]
        exact List.mem_filter.2 ⟨hr, by simpa using hle⟩, rfl⟩
  by_cases hcase : r.end_date ≤ now <;> simp [key, hcase]
  omega

/-- Three expired (ids 1, 2, 4) and two non-expired (ids 3, 5) records at
`now = 50`. -/
def sweepStoreExample : Store :=
  [⟨1, "15 Minutes", 0, 10⟩, ⟨2, "30 Minutes", 5, 20⟩, ⟨3, "1 Hour", 40, 100⟩,
   ⟨4, "15 Minutes", 0, 15⟩, ⟨5, "1 Hour", 100, 200⟩]

theorem check_subscription_expiry_sweeps_exactly_expired_witness :
    check_subscription_expiry (fun _ => true) (fun _ => true) 50
        sweepStoreExample =
      ([Event.sendRenewPrompt 1, Event.revokeMembership 1, Event.deleteRecord 1,
        Event.sendRenewPrompt 2, Event.revokeMembership 2, Event.deleteRecord 2,
        Event.sendRenewPrompt 4, Event.revokeMembership 4, Event.deleteRecord 4],
       [⟨3, "1 Hour", 40, 100⟩, ⟨5, "1 Hour", 100, 200⟩], true) := by
  rw [check_subscription_expiry_sweeps_exactly_expired (fun _ => true)
    (fun _ => true) 50 sweepStoreExample (fun _ => rfl) (fun _ => rfl)
    (by decide)]
  decide

/-- Two expired records. -/
def sweepFailureStore : Store :=
  [⟨1, "15 Minutes", 0, 10⟩, ⟨2, "30 Minutes", 0, 20⟩]

/-- C2 failing input: with both records expired at `now = 50`, a
`ban_chat_member` exception on record 1 leaves the trace at the renewal
prompt only — record 1 is not deleted and record 2 is never processed — and
a `send_message` exception on record 1 stops the sweep before any effect.
The store is unchanged in both cases and the sweep does not complete. -/
theorem check_subscription_expiry_aborts_on_single_failure :
    (check_subscription_expiry (fun _ => true) (fun c => c ≠ 1) 50
        sweepFailureStore =
      ([Event.sendRenewPrompt 1], sweepFailureStore, false)) ∧
    (check_subscription_expiry (fun c => c ≠ 1) (fun _ => true) 50
        sweepFailureStore =
      ([], sweepFailureStore, false)) := by decide

theorem filter_key_of_filter_ne (cid : Nat) (l : Store) :
    (l.filter (fun s => s.telegram_chat_id ≠ cid)).filter
      (fun s => s.telegram_chat_id = cid) = [] := by
  induction l with
  | nil => rfl
  | cons a t ih => by_cases h : a.telegram_chat_id = cid <;> simp [h, ih]

/-- C3: delivering the same successful webhook payload twice (at delivery
times `now₁` and then `now₂`) leaves exactly one record for the echoed chat
identity, and its span is a single plan duration anchored at the last
delivery, not an extended or doubled one. -/
theorem handle_payment_webhook_idempotent (payload : WebhookPayload)
    (plan : Plan) (now₁ now₂ : Nat) (store : Store)
    (hst : payload.status = "success")
    (hpl : subscription_plans payload.metadata.subscription_type = some plan) :
    (handle_payment_webhook true payload now₂
        (handle_payment_webhook true payload now₁ store)).filter
      (fun r => r.telegram_chat_id = payload.metadata.telegram_chat_id) =
      [{ telegram_chat_id := payload.metadata.telegram_chat_id
         plan := payload.metadata.subscription_type
         start_date := now₂
         end_date := now₂ + plan.duration }] := by
  simp only [handle_payment_webhook, hst, hpl, upsertSubscription,
    Bool.not_true, Bool.false_eq_true, if_false, ne_eq, not_true_eq_false,
    ite_false]
  simp [List.filter_filter, filter_key_of_filter_ne,
    filter_key_of_filter_ne payload.metadata.telegram_chat_id]

/-- The successful payload used to instantiate the idempotence theorem. -/
def webhookPayloadExample : WebhookPayload :=
  { reference := "ref-1"
    status := "success"
    metadata :=
      { telegram_chat_id := 42
        payment_reference := "ref-1"
        subscription_type := "30 Minutes"
        username := "alice" } }

theorem handle_payment_webhook_idempotent_witness :
    (handle_payment_webhook true webhookPayloadExample 1000
        (handle_payment_webhook true webhookPayloadExample 900 [])).filter
      (fun r => r.telegram_chat_id = 42) =
      [{ telegram_chat_id := 42, plan := "30 Minutes", start_date := 1000,
         end_date := 1030 }] :=
  handle_payment_webhook_idempotent webhookPayloadExample ⟨30, 25000⟩
    900 1000 [] rfl rfl

/-- C4: the status check answers the "no active subscription" message exactly
when the store has no record for the chat; otherwise the reply embeds the
end date of the record converted to the Africa/Lagos display timezone — its
date and its hour:minute fields appear in the message. -/
theorem check_subscription_status_reports_end_date (store : Store)
    (chatId : Nat) :
    (get_user_subscription chatId store = none →
      check_subscription_status store chatId =
        "You do not have an active subscription") ∧
    ∀ r, get_user_subscription chatId store = some r →
      check_subscription_status store chatId =
        "Your subscription expires on: " ++
          formatDate (displayDate r.end_date) ++ " by " ++
          String.mk (clockChars (displayHour r.end_date)) ++ ":" ++
          String.mk (clockChars (displayMinute r.end_date)) ∧
      List.IsInfix (formatDate (displayDate r.end_date)).data
        (check_subscription_status store chatId).data ∧
      List.IsInfix (String.mk (clockChars (displayHour r.end_date)) ++ ":" ++
          String.mk (clockChars (displayMinute r.end_date))).data
        (check_subscription_status store chatId).data := by
  constructor
  · intro h
    simp [check_subscription_status, h]
  · intro r h
    have hmsg : check_subscription_status store chatId =
        "Your subscription expires on: " ++
          formatDate (displayDate r.end_date) ++ " by " ++
          String.mk (clockChars (displayHour r.end_date)) ++ ":" ++
          String.mk (clockChars (displayMinute r.end_date)) := by
      simp [check_subscription_status, h]
    refine ⟨hmsg, ?_, ?_⟩
    · rw [hmsg]
      refine ⟨"Your subscription expires on: ".data,
        (" by " ++ String.mk (clockChars (displayHour r.end_date)) ++ ":" ++
          String.mk (clockChars (displayMinute r.end_date))).data, ?_⟩
      simp [String.data_append, List.append_assoc]
    · rw [hmsg]
      refine ⟨("Your subscription expires on: " ++
          formatDate (displayDate r.end_date) ++ " by ").data, [], ?_⟩
      simp [String.data_append, List.append_assoc]

theorem check_subscription_status_reports_end_date_witness :
    check_subscription_status [] 7 = "You do not have an active subscription" ∧
    check_subscription_status
        [{ telegram_chat_id := 42, plan := "1 Hour", start_date := 28620510,
           end_date := 28620570 }] 42 =
      "Your subscription expires on: 2024-06-01 by 10:30" := by
  constructor
  · exact (check_subscription_status_reports_end_date [] 7).1 rfl
  · have h := ((check_subscription_status_reports_end_date
      [⟨42, "1 Hour", 28620510, 28620570⟩] 42).2
      ⟨42, "1 Hour", 28620510, 28620570⟩ rfl).1
    rw [h]
    decide

/-- C5: in any chat context other than a one-to-one private conversation,
`start`, `plans` and the text-message handler send no outbound message and
leave the store unchanged. -/
theorem router_ignores_non_private (chat_type : String) (chat_id : Nat)
    (text : String) (store : Store) (h : chat_type ≠ "private") :
    start chat_type chat_id store = ([], store) ∧
    plans chat_type chat_id store = ([], store) ∧
    handle_message chat_type chat_id text store = ([], store) := by
  simp [start, plans, handle_message, h]

/-- The store used to instantiate the router theorem. -/
def routerStoreExample : Store := [⟨9, "1 Hour", 0, 60⟩]

theorem router_ignores_non_private_witness :
    ("group" : String) ≠ "private" ∧
    start "group" 42 routerStoreExample = ([], routerStoreExample) ∧
    plans "group" 42 routerStoreExample = ([], routerStoreExample) ∧
    handle_message "group" 42 "Join Private Group" routerStoreExample =
      ([], routerStoreExample) :=
  ⟨by decide,
    router_ignores_non_private "group" 42 "Join Private Group"
      routerStoreExample (by decide)⟩

/-- C6: the checkout-initialization body carries the amount converted to the
minor-unit convention of the gateway (× 100) and a metadata object holding
exactly the chat identity, the reference, the plan name and the display
name. -/
theorem paymentRequestBody_fields (amount : Nat) (email reference : String)
    (telegram_chat_id : Nat) (subscription_type username : String) :
    (paymentRequestBody amount email reference telegram_chat_id
        subscription_type username).amount = amount * 100 ∧
    (paymentRequestBody amount email reference telegram_chat_id
        subscription_type username).email = email ∧
    (paymentRequestBody amount email reference telegram_chat_id
        subscription_type username).reference = reference ∧
    (paymentRequestBody amount email reference telegram_chat_id
        subscription_type username).metadata =
      { telegram_chat_id := telegram_chat_id
        payment_reference := reference
        subscription_type := subscription_type
        username := username } :=
  ⟨rfl, rfl, rfl, rfl⟩

/-- C7: a network failure surfaces to the caller as the propagated exception,
and a gateway error payload surfaces as the returned error payload, which no
successful (authorization-URL) response equals; in both cases the
subscription store is untouched — `initiate_payment` performs no store
operation. -/
theorem initiate_payment_failure_surfaced (amount : Nat)
    (email reference : String) (telegram_chat_id : Nat)
    (subscription_type username : String)
    (gateway : PaymentRequestBody → Option HttpResponse) (store : Store) :
    (gateway (paymentRequestBody amount email reference telegram_chat_id
        subscription_type username) = none →
      initiate_payment amount email reference telegram_chat_id
        subscription_type username gateway store = (Except.error (), store)) ∧
    (∀ st msg,
      gateway (paymentRequestBody amount email reference telegram_chat_id
          subscription_type username) = some ⟨st, PSPayload.failure msg⟩ →
      initiate_payment amount email reference telegram_chat_id
          subscription_type username gateway store =
        (Except.ok (PSPayload.failure msg), store) ∧
      ∀ url, (Except.ok (PSPayload.failure msg) : Except Unit PSPayload) ≠
        Except.ok (PSPayload.success url)) := by
  constructor
  · intro h
    simp [initiate_payment, h]
  · intro st msg h
    refine ⟨by simp [initiate_payment, h], by intro url; simp⟩

theorem initiate_payment_failure_surfaced_witness :
    ((fun _ => none : PaymentRequestBody → Option HttpResponse)
        (paymentRequestBody 15000 "a@b.c" "ref" 42 "15 Minutes" "alice") =
        none ∧
      initiate_payment 15000 "a@b.c" "ref" 42 "15 Minutes" "alice"
        (fun _ => none) [] = (Except.error (), [])) ∧
    ((fun _ => some ⟨401, PSPayload.failure "Invalid key"⟩ :
        PaymentRequestBody → Option HttpResponse)
        (paymentRequestBody 15000 "a@b.c" "ref" 42 "15 Minutes" "alice") =
        some ⟨401, PSPayload.failure "Invalid key"⟩ ∧
      initiate_payment 15000 "a@b.c" "ref" 42 "15 Minutes" "alice"
        (fun _ => some ⟨401, PSPayload.failure "Invalid key"⟩) [] =
        (Except.ok (PSPayload.failure "Invalid key"), [])) :=
  ⟨⟨rfl,
    (initiate_payment_failure_surfaced 15000 "a@b.c" "ref" 42 "15 Minutes"
      "alice" (fun _ => none) []).1 rfl⟩,
   ⟨rfl,
    ((initiate_payment_failure_surfaced 15000 "a@b.c" "ref" 42 "15 Minutes"
      "alice" (fun _ => some ⟨401, PSPayload.failure "Invalid key"⟩) []).2
      401 "Invalid key" rfl).1⟩⟩

/-- The decimal rendering with a thousands separator used by the plan button
labels ("15,000"); defined for amounts below 100,000. -/
def groupedDec (n : Nat) : List Char :=
  if n < 1000 then clockChars n
  else clockChars (n / 1000) ++ [','] ++ toDecFixed 3 (n % 1000)

/-- C8 counterexample: the "15 Minutes" catalog entry has price 15000 while
its button label reads "15,000 NGN" (major units), and the body sent to the
gateway for that plan carries 15000 × 100 = 1,500,000 minor units — not the
catalog price. -/
theorem catalog_price_minor_unit_counterexample :
    subscription_plans "15 Minutes" = some ⟨15, 15000⟩ ∧
    ("15 minutes: 15,000 NGN", "15 Minutes") ∈ plansKeyboard ∧
    (paymentRequestBody 15000 "a@b.c" "ref" 42 "15 Minutes" "alice").amount =
      1500000 ∧
    (paymentRequestBody 15000 "a@b.c" "ref" 42 "15 Minutes" "alice").amount ≠
      15000 := by decide

/-- C8 amended: every catalog price is denominated in the major currency
unit — the button label of each plan displays exactly that number as an NGN
amount — and the request body charges price × 100 minor units (kobo), the
same monetary amount. -/
theorem catalog_prices_major_unit (name : String) (p : Plan)
    (hp : subscription_plans name = some p) (email reference : String)
    (chat_id : Nat) (username : String) :
    (paymentRequestBody p.price email reference chat_id name
        username).amount = p.price * 100 ∧
    ∃ desc, (desc, name) ∈ plansKeyboard ∧
      List.IsSuffix (groupedDec p.price ++ " NGN".data) desc.data := by
  refine ⟨rfl, ?_⟩
  by_cases h1 : name = "15 Minutes"
  · subst h1
    refine ⟨"15 minutes: 15,000 NGN", by decide, ?_⟩
    simp only [subscription_plans] at hp
    injection hp with hp
    rw [← hp]
    decide
  by_cases h2 : name = "30 Minutes"
  · subst h2
    refine ⟨"30 minutes: 25,000 NGN", by decide, ?_⟩
    simp only [subscription_plans] at hp
    injection hp with hp
    rw [← hp]
    decide
  by_cases h3 : name = "1 Hour"
  · subst h3
    refine ⟨"1 Hour: 95,000 NGN", by decide, ?_⟩
    simp only [subscription_plans] at hp
    injection hp with hp
    rw [← hp]
    decide
  · exfalso
    simp [subscription_plans, h1, h2, h3] at hp

theorem catalog_prices_major_unit_witness :
    subscription_plans "15 Minutes" = some ⟨15, 15000⟩ ∧
    ((paymentRequestBody (Plan.mk 15 15000).price "e@x.y" "r2" 7 "15 Minutes"
        "bob").amount = (Plan.mk 15 15000).price * 100 ∧
      ∃ desc, (desc, "15 Minutes") ∈ plansKeyboard ∧
        List.IsSuffix (groupedDec (Plan.mk 15 15000).price ++ " NGN".data)
          desc.data) :=
  ⟨by decide,
    catalog_prices_major_unit "15 Minutes" ⟨15, 15000⟩ (by decide) "e@x.y"
      "r2" 7 "bob"⟩
